import Mathlib

/-!
Verification of the SuroDeals classifieds backend (TypeScript) against its
natural-language specification.

Shallow embedding conventions:
* JavaScript strings are modelled as `List Char`; `String.prototype.toLowerCase`
  is modelled by mapping `Char.toLower` (identical on the ASCII range, which
  covers every string the verified properties are about).
* Database rows are modelled as Lean structures holding the columns the
  verified properties read or write; the database is a `List` of rows.
* Timestamps are integers (milliseconds, as produced by `Date.now()`); ISO
  timestamp strings are modelled by their millisecond value, which is
  order-isomorphic to the string representation the code stores.
* Fallible file I/O is modelled by explicit failure flags in an environment
  record, and a function that may throw returns `Except`.
-/

namespace Surodeals

/-- Shorthand: a Lean string literal as the `List Char` the embedding works on. -/
def str (s : String) : List Char := s.toList

/-! ## Blacklist filter (src/unnamed/part_002, `contentFilter` module)

`checkAdContent` lowercases `` `${title} ${description}` `` and tests each
blacklist entry with `new RegExp(`\b${word.toLowerCase()}\b`, 'i')`.
We embed the regex semantics for entries free of regex metacharacters
(every entry the repository ships or the claims mention is): the pattern
matches iff the entry occurs as a substring with a `\b` word boundary on
both sides, where `\b` holds between two positions of which exactly one
carries a word character (`[A-Za-z0-9_]`, JS `\w`). -/

/-- JS regex word character class `\w` = `[A-Za-z0-9_]`
(`Char.isAlphanum` is exactly ASCII letters and digits). -/
def isWordChar (c : Char) : Bool := c.isAlphanum || c == '_'

/-- Word-character test on an optional character; the ends of the string
behave as non-word characters for `\b`. -/
def optIsWordChar : Option Char → Bool
  | none => false
  | some c => isWordChar c

/-- `\b w \b` matches at the current position: `prev` is the character just
before the position, `s` the rest of the text. -/
def matchesWordAt (prev : Option Char) (w s : List Char) : Bool :=
  decide (w ≠ []) && w.isPrefixOf s
    && (optIsWordChar prev != optIsWordChar w.head?)
    && (optIsWordChar w.getLast? != optIsWordChar (s.drop w.length).head?)

/-- Scan every position of `s` for a `\b w \b` match (`RegExp.prototype.test`). -/
def testWholeWordGo (w : List Char) (prev : Option Char) (s : List Char) : Bool :=
  matchesWordAt prev w s ||
    match s with
    | [] => false
    | c :: rest => testWholeWordGo w (some c) rest

/-- `new RegExp(`\b${w}\b`).test(content)` for a metacharacter-free `w`. -/
def testWholeWord (w content : List Char) : Bool :=
  testWholeWordGo w none content

/-- `toLowerCase()` (ASCII range, see module conventions). -/
def lower (s : List Char) : List Char := s.map Char.toLower

/-- The hardcoded seed blacklist `blacklistWords` of the content filter. -/
def blacklistWords : List (List Char) :=
  [ "seks", "porno", "gokken", "drugs", "wapen", "nep", "scam", "escort",
    "nude", "fake", "sex", "porn", "gambling", "weapon", "fraud", "cocaine",
    "heroin", "marihuana", "weed", "prostitutie", "hoer", "bordeel",
    "illegaal", "gestolen", "namaak", "oplichting", "bitcoin scam",
    "pyramid scheme", "ponzi", "money laundering", "witwassen"
  ].map String.toList

/-- Result record of `checkAdContent`. -/
structure ContentCheckResult where
  allowed : Bool
  blockedWords : List (List Char)
  reason : Option (List Char)
deriving DecidableEq

/-- The lowercased concatenation `` `${title} ${description}` `` the filter scans. -/
def adContentText (title description : List Char) : List Char :=
  lower (title ++ ' ' :: description)

/-- The `foundWords` accumulator of `checkAdContent`: every blacklist entry
(as stored, once per list occurrence, in list order) whose lowercasing matches
the content as a whole word. -/
def foundWords (blacklist : List (List Char)) (title description : List Char) :
    List (List Char) :=
  blacklist.filter (fun w => testWholeWord (lower w) (adContentText title description))

/-- `checkAdContent(title, description)` over an explicit blacklist state:
collects the matching entries, then reports `allowed` and the Dutch
rejection reason. -/
def checkAdContent (blacklist : List (List Char)) (title description : List Char) :
    ContentCheckResult :=
  let fw := foundWords blacklist title description
  if fw.isEmpty then
    { allowed := true, blockedWords := [], reason := none }
  else
    { allowed := false
      blockedWords := fw
      reason := some (str "Advertentie bevat verboden woorden: "
        ++ List.intercalate (str ", ") fw) }

/-- `addToBlacklist(words)`: pushes `words.map(w => w.toLowerCase())` onto the
mutable array, with no deduplication. -/
def addToBlacklist (blacklist : List (List Char)) (words : List (List Char)) :
    List (List Char) :=
  blacklist ++ words.map lower

/-- `removeFromBlacklist(words)`: for each word, `indexOf` its lowercasing and
`splice` it out — i.e. remove the first occurrence only. -/
def removeFromBlacklist (blacklist : List (List Char)) (words : List (List Char)) :
    List (List Char) :=
  words.foldl (fun bl w => bl.erase (lower w)) blacklist

/-- `Char.toLower` (the ASCII lowercasing the embedding uses) is idempotent. -/
theorem toLower_toLower (c : Char) : c.toLower.toLower = c.toLower := by
  show Char.toLower _ = _
  unfold Char.toLower
  by_cases h : c.toNat ≥ 65 ∧ c.toNat ≤ 90
  · rw [if_pos h]
    have hv : Nat.isValidChar (c.toNat + 32) := Or.inl (by omega)
    have ht : (Char.ofNat (c.toNat + 32)).toNat = c.toNat + 32 := by
      rw [Char.ofNat, dif_pos hv]
      rfl
    rw [if_neg (by omega)]
  · rw [if_neg h, if_neg h]

theorem lower_lower (s : List Char) : lower (lower s) = lower s := by
  simp only [lower, List.map_map]
  exact List.map_congr_left (fun c _ => toLower_toLower c)

theorem checkAdContent_of_empty {bl : List (List Char)} {t d : List Char}
    (h : (foundWords bl t d).isEmpty = true) :
    checkAdContent bl t d = { allowed := true, blockedWords := [], reason := none } := by
  simp [checkAdContent, h]

theorem checkAdContent_of_nonempty {bl : List (List Char)} {t d : List Char}
    (h : (foundWords bl t d).isEmpty = false) :
    checkAdContent bl t d =
      { allowed := false
        blockedWords := foundWords bl t d
        reason := some (str "Advertentie bevat verboden woorden: "
          ++ List.intercalate (str ", ") (foundWords bl t d)) } := by
  simp [checkAdContent, h]

theorem count_filter_pos (p : List Char → Bool) (a : List Char)
    (l : List (List Char)) (h : p a = true) :
    (l.filter p).count a = l.count a := List.count_filter h

/-- The seed blacklist has no duplicate entries. -/
theorem blacklistWords_nodup : blacklistWords.Nodup := by decide

/-- C1: for every title and description whose lowercased concatenation
contains at least one blacklist entry as a whole word (case-insensitive,
word-boundary anchored), `checkAdContent` returns `allowed = false` with
`blockedWords` holding every matched entry exactly once (it is
duplicate-free, contains every matched entry, and nothing else); for every
title and description containing no blacklist entry as a whole word, it
returns `allowed = true` with an empty `blockedWords` list. -/
theorem checkAdContent_blacklist_correct (title description : List Char) :
    ((∃ w ∈ blacklistWords,
        testWholeWord (lower w) (adContentText title description) = true) →
      (checkAdContent blacklistWords title description).allowed = false ∧
      (checkAdContent blacklistWords title description).blockedWords.Nodup ∧
      (∀ w ∈ blacklistWords,
        testWholeWord (lower w) (adContentText title description) = true →
        w ∈ (checkAdContent blacklistWords title description).blockedWords) ∧
      (∀ w ∈ (checkAdContent blacklistWords title description).blockedWords,
        w ∈ blacklistWords ∧
          testWholeWord (lower w) (adContentText title description) = true)) ∧
    ((∀ w ∈ blacklistWords,
        testWholeWord (lower w) (adContentText title description) = false) →
      (checkAdContent blacklistWords title description).allowed = true ∧
      (checkAdContent blacklistWords title description).blockedWords = []) := by
  constructor
  · rintro ⟨w, hw, hmatch⟩
    have hmem : w ∈ foundWords blacklistWords title description :=
      List.mem_filter.mpr ⟨hw, hmatch⟩
    have hne : (foundWords blacklistWords title description).isEmpty = false := by
      have := List.ne_nil_of_mem hmem
      cases h : (foundWords blacklistWords title description).isEmpty
      · rfl
      · exact absurd (List.isEmpty_iff.mp h) this
    rw [checkAdContent_of_nonempty hne]
    refine ⟨rfl, ?_, ?_, ?_⟩
    · show (foundWords blacklistWords title description).Nodup
      exact blacklistWords_nodup.filter _
    · intro v hv hvmatch
      exact List.mem_filter.mpr ⟨hv, hvmatch⟩
    · intro v hvmem
      exact ⟨(List.mem_filter.mp hvmem).1, (List.mem_filter.mp hvmem).2⟩
  · intro hall
    have hnil : foundWords blacklistWords title description = [] :=
      List.filter_eq_nil_iff.mpr (fun w hw => by simp [hall w hw])
    rw [checkAdContent_of_empty (by simp [hnil])]
    exact ⟨rfl, rfl⟩

/-- Witness for C1: "Gratis gokken aanbieding" matches `gokken` (blocked,
present in a duplicate-free match list); "Mooie fiets te koop" matches
nothing (allowed). -/
theorem checkAdContent_blacklist_correct_witness :
    (checkAdContent blacklistWords (str "Gratis gokken aanbieding") (str "")).allowed
        = false ∧
    str "gokken" ∈ (checkAdContent blacklistWords (str "Gratis gokken aanbieding")
        (str "")).blockedWords ∧
    (checkAdContent blacklistWords (str "Gratis gokken aanbieding")
        (str "")).blockedWords.Nodup ∧
    (checkAdContent blacklistWords (str "Mooie fiets te koop")
        (str "degelijk")).allowed = true :=
  ⟨((checkAdContent_blacklist_correct (str "Gratis gokken aanbieding") (str "")).1
      ⟨str "gokken", by decide, by decide⟩).1,
   ((checkAdContent_blacklist_correct (str "Gratis gokken aanbieding") (str "")).1
      ⟨str "gokken", by decide, by decide⟩).2.2.1 (str "gokken") (by decide) (by decide),
   ((checkAdContent_blacklist_correct (str "Gratis gokken aanbieding") (str "")).1
      ⟨str "gokken", by decide, by decide⟩).2.1,
   ((checkAdContent_blacklist_correct (str "Mooie fiets te koop") (str "degelijk")).2
      (by decide)).1⟩

/-- C10 counterexample: the word `qwghzx` is not on the seed blacklist; adding
it twice and removing it once leaves a single copy, so `checkAdContent` on
content containing it whole-word still blocks, but the word appears exactly
once — not more than once — in `blockedWords`. -/
theorem addRemove_blockedWords_count_one :
    (checkAdContent
        (removeFromBlacklist
          (addToBlacklist blacklistWords [str "qwghzx", str "qwghzx"])
          [str "qwghzx"])
        (str "qwghzx te koop") (str "")).allowed = false ∧
    (checkAdContent
        (removeFromBlacklist
          (addToBlacklist blacklistWords [str "qwghzx", str "qwghzx"])
          [str "qwghzx"])
        (str "qwghzx te koop") (str "")).blockedWords.count (str "qwghzx") = 1 ∧
    ¬ 1 < (checkAdContent
        (removeFromBlacklist
          (addToBlacklist blacklistWords [str "qwghzx", str "qwghzx"])
          [str "qwghzx"])
        (str "qwghzx te koop") (str "")).blockedWords.count (str "qwghzx") := by
  refine ⟨by decide, by decide, by decide⟩

/-- C10 (amended): `addToBlacklist` appends the lowercased words without
deduplication and `removeFromBlacklist` removes only the first occurrence,
so after adding a word twice and removing it once the blacklist holds exactly
one copy more than before; `checkAdContent` on content containing the word
as a whole word still returns `allowed = false`, and the word's multiplicity
in `blockedWords` is one more than its original blacklist multiplicity —
before the removal (while both added duplicates remain) it is two more, so
it then appears at least twice. -/
theorem addRemove_blacklist_counts (blacklist : List (List Char))
    (w title description : List Char)
    (hmatch : testWholeWord (lower w) (adContentText title description) = true) :
    (removeFromBlacklist (addToBlacklist blacklist [w, w]) [w]).count (lower w)
        = blacklist.count (lower w) + 1 ∧
    (checkAdContent (removeFromBlacklist (addToBlacklist blacklist [w, w]) [w])
        title description).allowed = false ∧
    (checkAdContent (addToBlacklist blacklist [w, w])
        title description).blockedWords.count (lower w)
        = blacklist.count (lower w) + 2 ∧
    (checkAdContent (removeFromBlacklist (addToBlacklist blacklist [w, w]) [w])
        title description).blockedWords.count (lower w)
        = blacklist.count (lower w) + 1 := by
  have hpred : testWholeWord (lower (lower w)) (adContentText title description)
      = true := by rw [lower_lower]; exact hmatch
  have hadd : addToBlacklist blacklist [w, w] = blacklist ++ [lower w, lower w] := rfl
  have hrem : removeFromBlacklist (addToBlacklist blacklist [w, w]) [w]
      = (blacklist ++ [lower w, lower w]).erase (lower w) := rfl
  have hcadd : (addToBlacklist blacklist [w, w]).count (lower w)
      = blacklist.count (lower w) + 2 := by
    rw [hadd]; simp [List.count_append]
  have hcrem : (removeFromBlacklist (addToBlacklist blacklist [w, w]) [w]).count (lower w)
      = blacklist.count (lower w) + 1 := by
    rw [hrem, List.count_erase_self]
    have : (blacklist ++ [lower w, lower w]).count (lower w)
        = blacklist.count (lower w) + 2 := by simp [List.count_append]
    omega
  refine ⟨hcrem, ?_, ?_, ?_⟩
  · have hmem : lower w ∈ removeFromBlacklist (addToBlacklist blacklist [w, w]) [w] :=
      List.count_pos_iff.mp (by omega)
    have hfmem : lower w ∈ foundWords
        (removeFromBlacklist (addToBlacklist blacklist [w, w]) [w]) title description :=
      List.mem_filter.mpr ⟨hmem, hpred⟩
    have hne : (foundWords (removeFromBlacklist (addToBlacklist blacklist [w, w]) [w])
        title description).isEmpty = false := by
      have := List.ne_nil_of_mem hfmem
      cases h : (foundWords (removeFromBlacklist (addToBlacklist blacklist [w, w]) [w])
          title description).isEmpty
      · rfl
      · exact absurd (List.isEmpty_iff.mp h) this
    rw [checkAdContent_of_nonempty hne]
  · have hmem : lower w ∈ addToBlacklist blacklist [w, w] :=
      List.count_pos_iff.mp (by omega)
    have hfmem : lower w ∈ foundWords (addToBlacklist blacklist [w, w])
        title description := List.mem_filter.mpr ⟨hmem, hpred⟩
    have hne : (foundWords (addToBlacklist blacklist [w, w]) title
        description).isEmpty = false := by
      have := List.ne_nil_of_mem hfmem
      cases h : (foundWords (addToBlacklist blacklist [w, w]) title
          description).isEmpty
      · rfl
      · exact absurd (List.isEmpty_iff.mp h) this
    rw [checkAdContent_of_nonempty hne]
    show (foundWords (addToBlacklist blacklist [w, w]) title description).count (lower w)
        = blacklist.count (lower w) + 2
    rw [foundWords]
    exact (count_filter_pos
      (fun u => testWholeWord (lower u) (adContentText title description))
      (lower w) _ hpred).trans hcadd
  · have hmem : lower w ∈ removeFromBlacklist (addToBlacklist blacklist [w, w]) [w] :=
      List.count_pos_iff.mp (by omega)
    have hfmem : lower w ∈ foundWords
        (removeFromBlacklist (addToBlacklist blacklist [w, w]) [w]) title description :=
      List.mem_filter.mpr ⟨hmem, hpred⟩
    have hne : (foundWords (removeFromBlacklist (addToBlacklist blacklist [w, w]) [w])
        title description).isEmpty = false := by
      have := List.ne_nil_of_mem hfmem
      cases h : (foundWords (removeFromBlacklist (addToBlacklist blacklist [w, w]) [w])
          title description).isEmpty
      · rfl
      · exact absurd (List.isEmpty_iff.mp h) this
    rw [checkAdContent_of_nonempty hne]
    show (foundWords (removeFromBlacklist (addToBlacklist blacklist [w, w]) [w])
        title description).count (lower w) = blacklist.count (lower w) + 1
    rw [foundWords]
    exact (count_filter_pos
      (fun u => testWholeWord (lower u) (adContentText title description))
      (lower w) _ hpred).trans hcrem

/-- Witness for C10 (amended), at the capitalised fresh word "Qwghzx" over the
seed blacklist. -/
theorem addRemove_blacklist_counts_witness :
    (removeFromBlacklist (addToBlacklist blacklistWords
        [str "Qwghzx", str "Qwghzx"]) [str "Qwghzx"]).count (lower (str "Qwghzx"))
        = blacklistWords.count (lower (str "Qwghzx")) + 1 ∧
    (checkAdContent (removeFromBlacklist (addToBlacklist blacklistWords
        [str "Qwghzx", str "Qwghzx"]) [str "Qwghzx"])
        (str "qwghzx te koop") (str "")).allowed = false ∧
    (checkAdContent (addToBlacklist blacklistWords [str "Qwghzx", str "Qwghzx"])
        (str "qwghzx te koop") (str "")).blockedWords.count (lower (str "Qwghzx"))
        = blacklistWords.count (lower (str "Qwghzx")) + 2 ∧
    (checkAdContent (removeFromBlacklist (addToBlacklist blacklistWords
        [str "Qwghzx", str "Qwghzx"]) [str "Qwghzx"])
        (str "qwghzx te koop") (str "")).blockedWords.count (lower (str "Qwghzx"))
        = blacklistWords.count (lower (str "Qwghzx")) + 1 :=
  addRemove_blacklist_counts blacklistWords (str "Qwghzx")
    (str "qwghzx te koop") (str "") (by decide)

/-! ## Ad lifecycle (src/unnamed/part_002 `checkExpiredAds`,
src/unnamed/part_003 creation and one-click status endpoints,
src/server/index.ts `updateAdStatus`)

Only the columns the lifecycle logic reads or writes are modelled
(`id`, `status`, `createdAt`); the other ad columns are inert here. -/

/-- The `status` column of the `ads` table. -/
inductive AdStatus
  | pending
  | approved
  | rejected
  | expired
deriving DecidableEq

/-- 60 days in milliseconds, the expiry window of `checkExpiredAds`. -/
def sixtyDaysMs : Int := 60 * 24 * 60 * 60 * 1000

/-- One day in milliseconds. -/
def dayMs : Int := 24 * 60 * 60 * 1000

/-- An ad row (the lifecycle-relevant columns). -/
structure Ad where
  id : Nat
  status : AdStatus
  createdAt : Int
deriving DecidableEq

/-- The WHERE clause `createdAt < sixtyDaysAgo AND status <> 'expired'`
shared by the select and the update of `checkExpiredAds`. -/
def expiredWhere (now : Int) (a : Ad) : Bool :=
  decide (a.createdAt < now - sixtyDaysMs) && !(decide (a.status = AdStatus.expired))

/-- `checkExpiredAds()`: select the ads matching the expiry predicate; when
any exist, run one batch update setting `status = 'expired'` on the rows
matching the same predicate. -/
def checkExpiredAds (now : Int) (dbase : List Ad) : List Ad :=
  if (dbase.filter (expiredWhere now)).length > 0 then
    dbase.map (fun a =>
      if expiredWhere now a then { a with status := AdStatus.expired } else a)
  else dbase

/-- `updateAdStatus(id, status)` (src/server/index.ts): unconditional
`UPDATE ads SET status = ? WHERE id = ?`, with no guard on the current
status. `GET /api/ads/:id/approve` calls it with `approved` and
`GET /api/ads/:id/reject` with `rejected`. -/
def updateAdStatus (dbase : List Ad) (adId : Nat) (st : AdStatus) : List Ad :=
  dbase.map (fun a => if a.id = adId then { a with status := st } else a)

/-- `POST /api/ads`: `status = requireApproval === "true" ? "pending"
: "approved"`, where `requireApproval` is the admin setting
`requireAdApproval` (a string, or absent). -/
def newAdStatus (requireAdApproval : Option (List Char)) : AdStatus :=
  if requireAdApproval = some (str "true") then AdStatus.pending else AdStatus.approved

/-- `checkExpiredAds` acts pointwise: the batch update is equivalent to
mapping the conditional status change over every row. -/
theorem checkExpiredAds_eq_map (now : Int) (dbase : List Ad) :
    checkExpiredAds now dbase = dbase.map (fun a =>
      if expiredWhere now a then { a with status := AdStatus.expired } else a) := by
  unfold checkExpiredAds
  split
  · rfl
  · next h =>
    have hnil : dbase.filter (expiredWhere now) = [] := by
      cases hf : dbase.filter (expiredWhere now)
      · rfl
      · simp [hf] at h
    have hall := List.filter_eq_nil_iff.mp hnil
    conv_lhs => rw [show dbase = dbase.map (fun a => a) from (List.map_id dbase).symm]
    exact List.map_congr_left (fun a ha => by
      have : ¬ expiredWhere now a = true := hall a ha
      simp [this])

/-- C2 counterexample: a pending ad created 61 days ago is moved directly to
`expired` by the expiration sweep, and a rejected ad is moved to `approved`
by the one-click approve endpoint — both transitions the claim rules out. -/
theorem lifecycle_forbidden_transitions_occur :
    (checkExpiredAds (61 * dayMs) [⟨1, AdStatus.pending, 0⟩]).map Ad.status
        = [AdStatus.expired] ∧
    (updateAdStatus [⟨1, AdStatus.rejected, 0⟩] 1 AdStatus.approved).map Ad.status
        = [AdStatus.approved] := by
  constructor
  · decide
  · decide

/-- C2 (amended): the expiration sweep rewrites row `i` to the same row with
`status = expired` exactly when it is older than 60 days and not already
expired — regardless of whether it was pending, approved or rejected — and
leaves it untouched otherwise; `updateAdStatus` (the one-click
approve/reject endpoints) sets the requested status on every row with the
requested id unconditionally, including from `rejected` or `expired`, and
leaves other rows untouched. -/
theorem lifecycle_transitions_characterized (now : Int) (dbase : List Ad)
    (adId : Nat) (st : AdStatus) :
    (checkExpiredAds now dbase).length = dbase.length ∧
    (∀ i (h : i < dbase.length),
      (checkExpiredAds now dbase).get ⟨i, by
          simpa [checkExpiredAds_eq_map] using h⟩
        = (if expiredWhere now (dbase.get ⟨i, h⟩) then
            { dbase.get ⟨i, h⟩ with status := AdStatus.expired }
          else dbase.get ⟨i, h⟩)) ∧
    (updateAdStatus dbase adId st).length = dbase.length ∧
    (∀ i (h : i < dbase.length),
      (updateAdStatus dbase adId st).get ⟨i, by
          simpa [updateAdStatus] using h⟩
        = (if (dbase.get ⟨i, h⟩).id = adId then
            { dbase.get ⟨i, h⟩ with status := st }
          else dbase.get ⟨i, h⟩)) := by
  refine ⟨by simp [checkExpiredAds_eq_map], ?_, by simp [updateAdStatus], ?_⟩
  · intro i h
    simp [checkExpiredAds_eq_map, List.get_map]
  · intro i h
    simp [updateAdStatus, List.get_map]

/-- C6: the expiration sweep run at time `now` moves an approved ad created
61 days earlier to `expired`, and leaves an ad created 59 days earlier
unchanged. -/
theorem checkExpiredAds_61_59 (now : Int) (a : Ad) :
    (a.status = AdStatus.approved → a.createdAt = now - 61 * dayMs →
      checkExpiredAds now [a] = [{ a with status := AdStatus.expired }]) ∧
    (a.createdAt = now - 59 * dayMs → checkExpiredAds now [a] = [a]) := by
  constructor
  · intro hst hage
    have hw : expiredWhere now a = true := by
      simp [expiredWhere, hst, hage, sixtyDaysMs, dayMs]
    rw [checkExpiredAds_eq_map]
    simp [hw]
  · intro hage
    have hw : expiredWhere now a = false := by
      simp only [expiredWhere, hage, sixtyDaysMs, dayMs]
      have : ¬ (now - 59 * (24 * 60 * 60 * 1000) < now - 60 * 24 * 60 * 60 * 1000) := by
        omega
      simp [this]
    rw [checkExpiredAds_eq_map]
    simp [hw]

/-- Witness for C6 at `now = 0`. -/
theorem checkExpiredAds_61_59_witness :
    checkExpiredAds 0 [⟨7, AdStatus.approved, -(61 * dayMs)⟩]
        = [⟨7, AdStatus.expired, -(61 * dayMs)⟩] ∧
    checkExpiredAds 0 [⟨8, AdStatus.approved, -(59 * dayMs)⟩]
        = [⟨8, AdStatus.approved, -(59 * dayMs)⟩] :=
  ⟨(checkExpiredAds_61_59 0 ⟨7, AdStatus.approved, -(61 * dayMs)⟩).1 rfl (by ring_nf),
   (checkExpiredAds_61_59 0 ⟨8, AdStatus.approved, -(59 * dayMs)⟩).2 (by ring_nf)⟩

/-- C4: an ad created while the admin setting `requireAdApproval` is the
string "true" enters status `pending`; created under any other value
(including an absent setting), it enters `approved`. -/
theorem newAdStatus_requireApproval (s : Option (List Char)) :
    (s = some (str "true") → newAdStatus s = AdStatus.pending) ∧
    (s ≠ some (str "true") → newAdStatus s = AdStatus.approved) := by
  constructor
  · intro h
    simp [newAdStatus, h]
  · intro h
    simp [newAdStatus, h]

/-- Witness for C4: setting "true" yields `pending`; setting "false" yields
`approved`. -/
theorem newAdStatus_requireApproval_witness :
    newAdStatus (some (str "true")) = AdStatus.pending ∧
    newAdStatus (some (str "false")) = AdStatus.approved :=
  ⟨(newAdStatus_requireApproval (some (str "true"))).1 rfl,
   (newAdStatus_requireApproval (some (str "false"))).2 (by decide)⟩

/-! ## Blocked-ads logger (src/server/logging/blockedAdsLogger.ts)

File I/O is modelled by a `LogIOEnv` environment: the feature flag
`process.env.LOG_BLOCKED_ADS`, and two failure flags saying whether the read
of `blocked_ads.json` fails (missing/corrupt file, or `JSON.parse` yielding
nothing — all handled identically by the code) and whether the write fails.
`logBlockedAd` returns `Except`: an `Except.error` would model an exception
reaching the caller. -/

/-- A record of the `blocked_ads.json` log collection. -/
structure BlockedAdEntry where
  id : List Char
  timestamp : Nat
  ipAddress : List Char
  title : List Char
  description : List Char
  blockedWords : List (List Char)
  userAgent : Option (List Char)
deriving DecidableEq

/-- `MAX_LOG_ENTRIES`. -/
def MAX_LOG_ENTRIES : Nat := 1000

/-- Stable insertion into a timestamp-descending list; `insertByTsDesc` and
`sortByTimestampDesc` together implement the stable
`logs.sort((a, b) => b.timestamp - a.timestamp)` of the source. -/
def insertByTsDesc (e : BlockedAdEntry) : List BlockedAdEntry → List BlockedAdEntry
  | [] => [e]
  | f :: fs => if f.timestamp ≤ e.timestamp then e :: f :: fs else f :: insertByTsDesc e fs

/-- The timestamp-descending sort of `limitLogEntries`. -/
def sortByTimestampDesc : List BlockedAdEntry → List BlockedAdEntry
  | [] => []
  | e :: es => insertByTsDesc e (sortByTimestampDesc es)

/-- `limitLogEntries(logs)`: under the cap return the list unchanged;
above it, sort newest-first and keep the first `MAX_LOG_ENTRIES`. -/
def limitLogEntries (logs : List BlockedAdEntry) : List BlockedAdEntry :=
  if logs.length ≤ MAX_LOG_ENTRIES then logs
  else (sortByTimestampDesc logs).take MAX_LOG_ENTRIES

/-- The logger's I/O environment. -/
structure LogIOEnv where
  logBlockedAdsFlag : Option (List Char)
  readFails : Bool
  writeFails : Bool
deriving DecidableEq

/-- `isLoggingEnabled()`: `process.env.LOG_BLOCKED_ADS === 'true'`. -/
def isLoggingEnabled (env : LogIOEnv) : Bool :=
  decide (env.logBlockedAdsFlag = some (str "true"))

/-- `readExistingLogs()`: the file content, or `[]` on any read/parse
failure (the catch returns an empty array). -/
def readExistingLogs (env : LogIOEnv) (fileLogs : List BlockedAdEntry) :
    List BlockedAdEntry :=
  if env.readFails then [] else fileLogs

/-- `writeLogsToFile(logs)`: persists `logs`; a write error is caught inside
and only logged, leaving the previous file content in place. -/
def writeLogsToFile (env : LogIOEnv) (fileLogs newLogs : List BlockedAdEntry) :
    List BlockedAdEntry :=
  if env.writeFails then fileLogs else newLogs

/-- The log entry `logBlockedAd` builds: generated id, current timestamp,
title truncated to 200, description to 500, user agent to 200 characters. -/
def mkBlockedAdEntry (now : Nat) (newId ipAddress title description : List Char)
    (blockedWords : List (List Char)) (userAgent : Option (List Char)) :
    BlockedAdEntry :=
  { id := newId
    timestamp := now
    ipAddress := ipAddress
    title := title.take 200
    description := description.take 500
    blockedWords := blockedWords
    userAgent := userAgent.map (fun u => u.take 200) }

/-- `logBlockedAd(ipAddress, title, description, blockedWords, userAgent)`:
no-op unless logging is enabled; otherwise build the entry, read the
existing collection (read failures giving `[]`), prepend, cap with
`limitLogEntries`, and write back (write failures swallowed). The whole
body sits in a `try`/`catch`, so no error ever reaches the caller; the
result is the new persisted file content. -/
def logBlockedAd (env : LogIOEnv) (now : Nat) (newId : List Char)
    (fileLogs : List BlockedAdEntry) (ipAddress title description : List Char)
    (blockedWords : List (List Char)) (userAgent : Option (List Char)) :
    Except (List Char) (List BlockedAdEntry) :=
  if isLoggingEnabled env = false then Except.ok fileLogs
  else
    Except.ok (writeLogsToFile env fileLogs
      (limitLogEntries
        (mkBlockedAdEntry now newId ipAddress title description blockedWords userAgent
          :: readExistingLogs env fileLogs)))

/-- One successful, enabled invocation of `logBlockedAd` as a state step. -/
def logStep (e : BlockedAdEntry) (logs : List BlockedAdEntry) : List BlockedAdEntry :=
  limitLogEntries (e :: logs)

/-- The per-invocation arguments of `logBlockedAd` (impure inputs included:
current time and generated id). -/
structure BlockedAdInput where
  now : Nat
  newId : List Char
  ipAddress : List Char
  title : List Char
  description : List Char
  blockedWords : List (List Char)
  userAgent : Option (List Char)
deriving DecidableEq

/-- The entry a given invocation appends. -/
def entryOfInput (i : BlockedAdInput) : BlockedAdEntry :=
  mkBlockedAdEntry i.now i.newId i.ipAddress i.title i.description i.blockedWords
    i.userAgent

/-- Logging enabled, no I/O failures. -/
def enabledEnv : LogIOEnv :=
  { logBlockedAdsFlag := some (str "true"), readFails := false, writeFails := false }

/-- Run a sequence of `logBlockedAd` invocations against the file state. -/
def logBlockedAdRun (env : LogIOEnv) (fileLogs : List BlockedAdEntry) :
    List BlockedAdInput → List BlockedAdEntry
  | [] => fileLogs
  | i :: is =>
      logBlockedAdRun env
        (match logBlockedAd env i.now i.newId fileLogs i.ipAddress i.title
            i.description i.blockedWords i.userAgent with
         | Except.ok st => st
         | Except.error _ => fileLogs) is

theorem logBlockedAd_enabledEnv (now : Nat) (newId : List Char)
    (fileLogs : List BlockedAdEntry) (ipAddress title description : List Char)
    (blockedWords : List (List Char)) (userAgent : Option (List Char)) :
    logBlockedAd enabledEnv now newId fileLogs ipAddress title description
        blockedWords userAgent
      = Except.ok
          (logStep
            (mkBlockedAdEntry now newId ipAddress title description blockedWords
              userAgent)
            fileLogs) := by
  simp [logBlockedAd, isLoggingEnabled, enabledEnv, readExistingLogs, writeLogsToFile,
    logStep]

theorem logBlockedAdRun_enabledEnv (inputs : List BlockedAdInput) :
    ∀ fileLogs : List BlockedAdEntry,
      logBlockedAdRun enabledEnv fileLogs inputs
        = (inputs.map entryOfInput).foldl (fun st e => logStep e st) fileLogs := by
  induction inputs with
  | nil => intro fileLogs; rfl
  | cons i is ih =>
    intro fileLogs
    rw [logBlockedAdRun, logBlockedAd_enabledEnv]
    rw [List.map_cons, List.foldl_cons]
    exact ih _

theorem foldl_logStep_small (es : List BlockedAdEntry) :
    ∀ st : List BlockedAdEntry, es.length + st.length ≤ MAX_LOG_ENTRIES →
      es.foldl (fun s e => logStep e s) st = es.reverse ++ st := by
  induction es with
  | nil => intro st _; simp
  | cons e es ih =>
    intro st h
    have hstep : logStep e st = e :: st := by
      simp only [logStep, limitLogEntries]
      rw [if_pos]
      simp only [List.length_cons] at h ⊢
      omega
    rw [List.foldl_cons, hstep, ih (e :: st) (by simp at h ⊢; omega)]
    simp

theorem sortByTimestampDesc_of_sorted :
    ∀ l : List BlockedAdEntry,
      l.Chain' (fun a b => b.timestamp ≤ a.timestamp) → sortByTimestampDesc l = l := by
  intro l
  induction l with
  | nil => intro _; rfl
  | cons e es ih =>
    intro h
    rw [sortByTimestampDesc, ih h.tail]
    cases es with
    | nil => rfl
    | cons f fs =>
      have hef : f.timestamp ≤ e.timestamp := (List.chain'_cons.mp h).1
      simp [insertByTsDesc, hef]

/-- C3: starting from an empty log file, 1001 successful enabled
`logBlockedAd` invocations with strictly increasing timestamps leave exactly
1000 persisted entries, namely the entries of the 1000 most recent
invocations (newest first): the single oldest entry is evicted. -/
theorem logBlockedAd_cap_1001 (inputs : List BlockedAdInput)
    (hlen : inputs.length = 1001)
    (hmono : inputs.Chain' (fun a b => a.now < b.now)) :
    (logBlockedAdRun enabledEnv [] inputs).length = 1000 ∧
    logBlockedAdRun enabledEnv [] inputs
      = ((inputs.map entryOfInput).drop 1).reverse := by
  have hrun := logBlockedAdRun_enabledEnv inputs []
  set es := inputs.map entryOfInput with hes
  have heslen : es.length = 1001 := by simp [hes, hlen]
  have heschain : es.Chain' (fun a b => a.timestamp < b.timestamp) := by
    rw [hes, List.chain'_map]
    exact hmono
  have hsplit : es.take 1000 ++ es.drop 1000 = es := List.take_append_drop _ _
  have hfrontlen : (es.take 1000).length = 1000 := by
    simp [heslen]
  have hdroplen : (es.drop 1000).length = 1 := by
    simp [heslen]
  obtain ⟨lastE, hlastE⟩ : ∃ x, es.drop 1000 = [x] := by
    cases hd : es.drop 1000 with
    | nil => rw [hd] at hdroplen; simp at hdroplen
    | cons x xs =>
      cases xs with
      | nil => exact ⟨x, rfl⟩
      | cons y ys => rw [hd] at hdroplen; simp at hdroplen
  have hfold : es.foldl (fun st e => logStep e st) []
      = logStep lastE ((es.take 1000).reverse ++ []) := by
    conv_lhs => rw [← hsplit]
    rw [List.foldl_append,
      foldl_logStep_small (es.take 1000) [] (by rw [hfrontlen]; simp [MAX_LOG_ENTRIES]),
      hlastE]
    rfl
  haveI : IsTrans BlockedAdEntry (fun a b => a.timestamp < b.timestamp) :=
    ⟨fun _ _ _ hab hbc => Nat.lt_trans hab hbc⟩
  have hpair : es.Pairwise (fun a b => a.timestamp < b.timestamp) :=
    List.chain'_iff_pairwise.mp heschain
  rw [← hsplit] at hpair
  have hparts := List.pairwise_append.mp hpair
  have hcross : ∀ a ∈ es.take 1000, a.timestamp < lastE.timestamp := by
    intro a ha
    exact hparts.2.2 a ha lastE (by rw [hlastE]; simp)
  have hsorted : (lastE :: (es.take 1000).reverse).Chain'
      (fun a b => b.timestamp ≤ a.timestamp) := by
    apply List.Pairwise.chain'
    rw [List.pairwise_cons]
    constructor
    · intro b hb
      exact Nat.le_of_lt (hcross b (List.mem_reverse.mp hb))
    · rw [List.pairwise_reverse]
      exact hparts.1.imp (fun h => Nat.le_of_lt h)
  have hlen1001 : (lastE :: (es.take 1000).reverse).length = 1001 := by
    simp [hfrontlen]
  have hlimit : logStep lastE ((es.take 1000).reverse)
      = lastE :: (es.take 1000).reverse.take 999 := by
    rw [logStep, limitLogEntries, if_neg (by rw [List.length_cons, List.length_reverse, hfrontlen]; simp [MAX_LOG_ENTRIES]),
      sortByTimestampDesc_of_sorted _ hsorted]
    rfl
  have htail : (es.take 1000).reverse.take 999 = ((es.take 1000).drop 1).reverse := by
    have h999 : (999 : Nat) = (es.take 1000).reverse.length - 1 := by
      rw [List.length_reverse, hfrontlen]
    rw [h999, ← List.dropLast_eq_take]
    have h1 := List.tail_reverse (es.take 1000).reverse
    rw [List.reverse_reverse] at h1
    have h2 := congrArg List.reverse h1
    rw [List.reverse_reverse] at h2
    rw [← h2, List.drop_one]
  have hdrop1 : (es.drop 1).reverse = lastE :: ((es.take 1000).drop 1).reverse := by
    conv_lhs => rw [← hsplit]
    rw [List.drop_append_of_le_length (by rw [hfrontlen]; omega), hlastE]
    simp
  rw [hrun, hfold]
  rw [List.append_nil] at *
  rw [hlimit, htail, hdrop1]
  refine ⟨?_, rfl⟩
  simp [hfrontlen]

/-- Concrete run of 1001 invocations for the C3 witness. -/
def elevenHundredInputs : List BlockedAdInput :=
  (List.range 1001).map (fun n =>
    { now := n, newId := [], ipAddress := [], title := [], description := [],
      blockedWords := [], userAgent := none })

set_option maxRecDepth 4000 in
/-- Witness for C3, at 1001 invocations with timestamps `0, 1, …, 1000`. -/
theorem logBlockedAd_cap_1001_witness :
    (logBlockedAdRun enabledEnv [] elevenHundredInputs).length = 1000 :=
  (logBlockedAd_cap_1001 elevenHundredInputs
    (by rw [elevenHundredInputs, List.length_map, List.length_range])
    (by
      rw [elevenHundredInputs, List.chain'_map,
        show (1001 : Nat) = Nat.succ 1000 from rfl]
      exact (List.chain'_range_succ (fun a b => a < b) 1000).mpr
        (fun m _ => Nat.lt_succ_self m))).1

/-- C5: `logBlockedAd` is a no-op when the logging flag is not the string
"true", and in every environment — any combination of read and write
failures — it returns `Except.ok` (no exception ever reaches the caller).
When enabled, a read failure is treated as an empty collection: with the
write succeeding, the persisted file afterwards holds exactly the new
entry. -/
theorem logBlockedAd_failure_semantics (env : LogIOEnv) (now : Nat)
    (newId : List Char) (fileLogs : List BlockedAdEntry)
    (ipAddress title description : List Char) (blockedWords : List (List Char))
    (userAgent : Option (List Char)) :
    (∃ newState, logBlockedAd env now newId fileLogs ipAddress title description
        blockedWords userAgent = Except.ok newState) ∧
    (isLoggingEnabled env = false →
      logBlockedAd env now newId fileLogs ipAddress title description
        blockedWords userAgent = Except.ok fileLogs) ∧
    (isLoggingEnabled env = true → env.readFails = true → env.writeFails = false →
      logBlockedAd env now newId fileLogs ipAddress title description
        blockedWords userAgent
        = Except.ok
            [mkBlockedAdEntry now newId ipAddress title description blockedWords
              userAgent]) := by
  refine ⟨?_, ?_, ?_⟩
  · unfold logBlockedAd
    split
    · exact ⟨fileLogs, rfl⟩
    · exact ⟨_, rfl⟩
  · intro h
    simp [logBlockedAd, h]
  · intro hen hread hwrite
    rw [logBlockedAd, if_neg (by simp [hen])]
    simp [readExistingLogs, hread, writeLogsToFile, hwrite, limitLogEntries,
      MAX_LOG_ENTRIES]

/-- Witness for C5: a disabled environment is a no-op; an enabled environment
whose read fails but whose write succeeds persists exactly the new entry. -/
theorem logBlockedAd_failure_semantics_witness :
    logBlockedAd ⟨none, false, false⟩ 5 (str "id1") [] (str "ip") (str "t")
        (str "d") [] none = Except.ok [] ∧
    logBlockedAd ⟨some (str "true"), true, false⟩ 5 (str "id1") [] (str "ip")
        (str "t") (str "d") [] none
      = Except.ok [mkBlockedAdEntry 5 (str "id1") (str "ip") (str "t") (str "d") [] none] :=
  ⟨(logBlockedAd_failure_semantics ⟨none, false, false⟩ 5 (str "id1") [] (str "ip")
      (str "t") (str "d") [] none).2.1 (by decide),
   (logBlockedAd_failure_semantics ⟨some (str "true"), true, false⟩ 5 (str "id1") []
      (str "ip") (str "t") (str "d") [] none).2.2 (by decide) rfl rfl⟩

/-! ## Dynamic filter generator (src/unnamed/part_003,
`generateDynamicFilters` / `generateCategorySpecificFilters` /
`extractKeywords` / `capitalizeFirst`)

The endpoint `GET /api/filters/:categorySlug` calls `generateDynamicFilters`
exactly when the category has no curated (admin-authored) filter-definition
rows; its input is the category's approved ads (title, description,
location, price — the selected columns). The `placeholder`, `required` and
`isActive` outputs are constants the verified properties never read and are
omitted from the row model. -/

/-- `String.prototype.includes`: `k` occurs as a contiguous substring. -/
def includesSub (text k : List Char) : Bool :=
  k.isPrefixOf text ||
    match text with
    | [] => false
    | _ :: rest => includesSub rest k

/-- `[...new Set(l)]`: deduplicate keeping the first occurrence of each
element, in order; `seen` holds the elements already emitted. -/
def dedupFirstAux (seen : List (List Char)) : List (List Char) → List (List Char)
  | [] => []
  | x :: xs =>
      if x ∈ seen then dedupFirstAux seen xs
      else x :: dedupFirstAux (x :: seen) xs

/-- `[...new Set(l)]`. -/
def dedupFirst (l : List (List Char)) : List (List Char) := dedupFirstAux [] l

/-- JavaScript default string comparison (`Array.prototype.sort()` with no
comparator): lexicographic by code unit. -/
def lexLe : List Char → List Char → Bool
  | [], _ => true
  | _ :: _, [] => false
  | c :: cs, d :: ds => if c = d then lexLe cs ds else decide (c < d)

def insertLex (x : List Char) : List (List Char) → List (List Char)
  | [] => [x]
  | y :: ys => if lexLe x y then x :: y :: ys else y :: insertLex x ys

/-- `.sort()` on an array of strings. -/
def sortLexAsc : List (List Char) → List (List Char)
  | [] => []
  | x :: xs => insertLex x (sortLexAsc xs)

/-- `capitalizeFirst(str)`: uppercase the first character. -/
def capitalizeFirst : List Char → List Char
  | [] => []
  | c :: cs => c.toUpper :: cs

/-- `extractKeywords(text, keywords)`: the keywords whose lowercasing occurs
as a substring of `text`, deduplicated. -/
def extractKeywords (text : List Char) (keywords : List (List Char)) :
    List (List Char) :=
  dedupFirst (keywords.filter (fun k => includesSub text (lower k)))

def autoBrandKeywords : List (List Char) :=
  [ "toyota", "bmw", "mercedes", "volkswagen", "audi", "ford", "hyundai",
    "kia", "nissan", "honda", "peugeot", "renault", "opel", "mazda", "suzuki"
  ].map String.toList

def fuelTypeKeywords : List (List Char) :=
  ["benzine", "diesel", "hybride", "elektrisch", "lpg"].map String.toList

def transmissionKeywords : List (List Char) :=
  ["handgeschakeld", "automaat", "handmatig"].map String.toList

def phoneBrandKeywords : List (List Char) :=
  [ "iphone", "apple", "samsung", "huawei", "xiaomi", "oppo", "vivo",
    "oneplus", "google" ].map String.toList

def phoneConditionKeywords : List (List Char) :=
  ["nieuw", "gebruikt", "refurbished", "gereviseerd"].map String.toList

def clothingSizeKeywords : List (List Char) :=
  ["xs", "s", "m", "l", "xl", "xxl", "xxxl"].map String.toList

def clothingConditionKeywords : List (List Char) :=
  ["nieuw", "gebruikt", "vintage"].map String.toList

/-- A synthesized filter definition (the fields the verified properties
read). -/
structure FilterDef where
  id : List Char
  categorySlug : List Char
  field : List Char
  label : List Char
  ftype : List Char
  options : Option (List (List Char))
  sortOrder : Nat
deriving DecidableEq

/-- An ad row as selected by `generateDynamicFilters` (title, description,
location, price); a NULL or empty location is modelled as `[]`, a NULL
price as a non-positive value — both are falsy in the JS filters. -/
structure AdRow where
  title : List Char
  description : List Char
  location : List Char
  price : Int
deriving DecidableEq

/-- ``ads.map(ad => `${ad.title} ${ad.description}`).join(' ').toLowerCase()``. -/
def allTextOf (ads : List AdRow) : List Char :=
  lower (List.intercalate (str " ") (ads.map (fun a => a.title ++ ' ' :: a.description)))

/-- `categorySlug === 'autos' || categorySlug.includes('auto')`. -/
def isAutoCategory (slug : List Char) : Bool :=
  decide (slug = str "autos") || includesSub slug (str "auto")

/-- `categorySlug.includes('telefoon') || categorySlug.includes('elektronica')`. -/
def isPhoneCategory (slug : List Char) : Bool :=
  includesSub slug (str "telefoon") || includesSub slug (str "elektronica")

/-- `categorySlug.includes('kleding')`. -/
def isClothingCategory (slug : List Char) : Bool :=
  includesSub slug (str "kleding")

/-- A pushed select-type facet. -/
def mkSelectFilter (fid slug fieldName label : List Char)
    (opts : List (List Char)) (ord : Nat) : FilterDef :=
  { id := fid, categorySlug := slug, field := fieldName, label := label
    ftype := str "select", options := some opts, sortOrder := ord }

/-- The auto-category block: merk, brandstof, transmissie — each pushed only
when its keyword family has at least two distinct hits. -/
def autoFilters (slug allText : List Char) : List FilterDef :=
  (if (extractKeywords allText autoBrandKeywords).length > 1 then
    [mkSelectFilter (str "dynamic-merk") slug (str "merk") (str "Merk")
      (sortLexAsc ((extractKeywords allText autoBrandKeywords).map capitalizeFirst)) 4]
  else []) ++
  (if (extractKeywords allText fuelTypeKeywords).length > 1 then
    [mkSelectFilter (str "dynamic-brandstof") slug (str "brandstof") (str "Brandstof")
      (sortLexAsc ((extractKeywords allText fuelTypeKeywords).map capitalizeFirst)) 5]
  else []) ++
  (if (extractKeywords allText transmissionKeywords).length > 1 then
    [mkSelectFilter (str "dynamic-transmissie") slug (str "transmissie")
      (str "Transmissie")
      (sortLexAsc ((extractKeywords allText transmissionKeywords).map capitalizeFirst)) 6]
  else [])

/-- The electronics/phones block: merk, conditie. -/
def phoneFilters (slug allText : List Char) : List FilterDef :=
  (if (extractKeywords allText phoneBrandKeywords).length > 1 then
    [mkSelectFilter (str "dynamic-merk") slug (str "merk") (str "Merk")
      (sortLexAsc ((extractKeywords allText phoneBrandKeywords).map capitalizeFirst)) 4]
  else []) ++
  (if (extractKeywords allText phoneConditionKeywords).length > 1 then
    [mkSelectFilter (str "dynamic-conditie") slug (str "conditie") (str "Conditie")
      (sortLexAsc ((extractKeywords allText phoneConditionKeywords).map capitalizeFirst)) 5]
  else [])

/-- The clothing block: maat (uppercased sizes), conditie. -/
def clothingFilters (slug allText : List Char) : List FilterDef :=
  (if (extractKeywords allText clothingSizeKeywords).length > 1 then
    [mkSelectFilter (str "dynamic-maat") slug (str "maat") (str "Maat")
      (sortLexAsc ((extractKeywords allText clothingSizeKeywords).map
        (fun s => s.map Char.toUpper))) 4]
  else []) ++
  (if (extractKeywords allText clothingConditionKeywords).length > 1 then
    [mkSelectFilter (str "dynamic-conditie") slug (str "conditie") (str "Conditie")
      (sortLexAsc ((extractKeywords allText clothingConditionKeywords).map
        capitalizeFirst)) 5]
  else [])

/-- `generateCategorySpecificFilters(categorySlug, ads)`. -/
def generateCategorySpecificFilters (slug : List Char) (ads : List AdRow) :
    List FilterDef :=
  (if isAutoCategory slug then autoFilters slug (allTextOf ads) else []) ++
  (if isPhoneCategory slug then phoneFilters slug (allTextOf ads) else []) ++
  (if isClothingCategory slug then clothingFilters slug (allTextOf ads) else [])

/-- `[...new Set(categoryAds.map(ad => ad.location).filter(Boolean))]`. -/
def locationOptions (ads : List AdRow) : List (List Char) :=
  dedupFirst ((ads.map AdRow.location).filter (fun l => decide (l ≠ [])))

/-- `categoryAds.map(ad => ad.price).filter(p => p && p > 0)`. -/
def priceValues (ads : List AdRow) : List Int :=
  (ads.map AdRow.price).filter (fun p => decide (0 < p))

/-- The `dynamic-location` facet. -/
def locationFilterDef (slug : List Char) (opts : List (List Char)) : FilterDef :=
  { id := str "dynamic-location", categorySlug := slug, field := str "location"
    label := str "Locatie", ftype := str "select", options := some opts
    sortOrder := 1 }

/-- The price-range block: both number facets, pushed only when the observed
range is non-degenerate (`maxPrice > minPrice`). -/
def priceFilters (slug : List Char) (ads : List AdRow) : List FilterDef :=
  match priceValues ads with
  | [] => []
  | p :: ps =>
      if ps.foldl min p < ps.foldl max p then
        [{ id := str "dynamic-price-min", categorySlug := slug
           field := str "price_min", label := str "Prijs vanaf"
           ftype := str "number", options := none, sortOrder := 2 },
         { id := str "dynamic-price-max", categorySlug := slug
           field := str "price_max", label := str "Prijs tot"
           ftype := str "number", options := none, sortOrder := 3 }]
      else []

/-- `generateDynamicFilters(categorySlug)` applied to the category's approved
ads: empty for an empty category; otherwise the location facet (when more
than one distinct non-empty location exists, options sorted), the price-range
facets, and the category-specific keyword facets, in that order. -/
def generateDynamicFilters (slug : List Char) (categoryAds : List AdRow) :
    List FilterDef :=
  if categoryAds.length = 0 then []
  else
    (if (locationOptions categoryAds).length > 1 then
      [locationFilterDef slug (sortLexAsc (locationOptions categoryAds))]
    else []) ++
    priceFilters slug categoryAds ++
    generateCategorySpecificFilters slug categoryAds

theorem mem_dedupFirstAux (a : List Char) :
    ∀ (l seen : List (List Char)), a ∈ dedupFirstAux seen l ↔ a ∈ l ∧ a ∉ seen := by
  intro l
  induction l with
  | nil => intro seen; simp [dedupFirstAux]
  | cons x xs ih =>
    intro seen
    by_cases hx : x ∈ seen
    · rw [dedupFirstAux, if_pos hx, ih]
      constructor
      · rintro ⟨h1, h2⟩
        exact ⟨List.mem_cons_of_mem _ h1, h2⟩
      · rintro ⟨h1, h2⟩
        rcases List.mem_cons.mp h1 with h | h
        · exact absurd (h ▸ hx) h2
        · exact ⟨h, h2⟩
    · rw [dedupFirstAux, if_neg hx]
      by_cases hax : a = x
      · subst hax
        simp [hx]
      · rw [List.mem_cons]
        simp only [hax, false_or]
        rw [ih]
        simp [List.mem_cons, hax]

theorem nodup_dedupFirstAux :
    ∀ (l seen : List (List Char)), (dedupFirstAux seen l).Nodup := by
  intro l
  induction l with
  | nil => intro seen; simp [dedupFirstAux]
  | cons x xs ih =>
    intro seen
    by_cases hx : x ∈ seen
    · rw [dedupFirstAux, if_pos hx]; exact ih seen
    · rw [dedupFirstAux, if_neg hx]
      refine List.nodup_cons.mpr ⟨?_, ih (x :: seen)⟩
      intro hmem
      exact ((mem_dedupFirstAux x xs (x :: seen)).mp hmem).2 (List.mem_cons_self x seen)

/-- `[...new Set(l)]` has exactly one element per distinct value of `l`. -/
theorem dedupFirst_length (l : List (List Char)) :
    (dedupFirst l).length = l.toFinset.card := by
  have hnd : (dedupFirst l).Nodup := nodup_dedupFirstAux l []
  have hmem : ∀ a, a ∈ dedupFirst l ↔ a ∈ l := by
    intro a
    rw [dedupFirst, mem_dedupFirstAux]
    simp
  have hset : (dedupFirst l).toFinset = l.toFinset := by
    ext a
    simp [List.mem_toFinset, hmem a]
  rw [← List.toFinset_card_of_nodup hnd, hset]

theorem mem_ite_singleton {c : Prop} [Decidable c] {f x : FilterDef}
    (h : f ∈ if c then [x] else []) : f = x := by
  split at h
  · simpa using h
  · simp at h

theorem autoFilters_field {slug allText : List Char} {f : FilterDef}
    (h : f ∈ autoFilters slug allText) :
    f.field = str "merk" ∨ f.field = str "brandstof" ∨ f.field = str "transmissie" := by
  rw [autoFilters] at h
  rcases List.mem_append.mp h with h | h
  · rcases List.mem_append.mp h with h | h
    · exact Or.inl (by rw [mem_ite_singleton h]; rfl)
    · exact Or.inr (Or.inl (by rw [mem_ite_singleton h]; rfl))
  · exact Or.inr (Or.inr (by rw [mem_ite_singleton h]; rfl))

theorem phoneFilters_field {slug allText : List Char} {f : FilterDef}
    (h : f ∈ phoneFilters slug allText) :
    f.field = str "merk" ∨ f.field = str "conditie" := by
  rw [phoneFilters] at h
  rcases List.mem_append.mp h with h | h
  · exact Or.inl (by rw [mem_ite_singleton h]; rfl)
  · exact Or.inr (by rw [mem_ite_singleton h]; rfl)

theorem clothingFilters_field {slug allText : List Char} {f : FilterDef}
    (h : f ∈ clothingFilters slug allText) :
    f.field = str "maat" ∨ f.field = str "conditie" := by
  rw [clothingFilters] at h
  rcases List.mem_append.mp h with h | h
  · exact Or.inl (by rw [mem_ite_singleton h]; rfl)
  · exact Or.inr (by rw [mem_ite_singleton h]; rfl)

theorem generateCategorySpecificFilters_ne_location {slug : List Char}
    {ads : List AdRow} {f : FilterDef}
    (h : f ∈ generateCategorySpecificFilters slug ads) : f.field ≠ str "location" := by
  rw [generateCategorySpecificFilters] at h
  rcases List.mem_append.mp h with h | h
  · rcases List.mem_append.mp h with h | h
    · split at h
      · rcases autoFilters_field h with hf | hf | hf <;> rw [hf] <;> decide
      · simp at h
    · split at h
      · rcases phoneFilters_field h with hf | hf <;> rw [hf] <;> decide
      · simp at h
  · split at h
    · rcases clothingFilters_field h with hf | hf <;> rw [hf] <;> decide
    · simp at h

theorem priceFilters_ne_location {slug : List Char} {ads : List AdRow}
    {f : FilterDef} (h : f ∈ priceFilters slug ads) : f.field ≠ str "location" := by
  rw [priceFilters] at h
  split at h
  · simp at h
  · split at h
    · rcases List.mem_cons.mp h with hf | hf
      · rw [hf]
        show str "price_min" ≠ str "location"
        decide
      · rw [List.mem_singleton.mp hf]
        show str "price_max" ≠ str "location"
        decide
    · simp at h

/-- C8: for every category with no curated filter definitions, the
synthesized filter list contains a `location` facet iff the category's
approved ads have at least two distinct non-empty location values; when it
does, that facet is unique, with the sorted distinct values as its options.
The second conjunct identifies the branch condition with the number of
distinct non-empty locations. -/
theorem generateDynamicFilters_location_facet (slug : List Char) (ads : List AdRow) :
    ((generateDynamicFilters slug ads).filter
        (fun f => decide (f.field = str "location"))
      = if 1 < (locationOptions ads).length then
          [locationFilterDef slug (sortLexAsc (locationOptions ads))]
        else []) ∧
    (locationOptions ads).length
      = ((ads.map AdRow.location).filter (fun l => decide (l ≠ []))).toFinset.card := by
  refine ⟨?_, dedupFirst_length _⟩
  rw [generateDynamicFilters]
  by_cases hads : ads.length = 0
  · rw [if_pos hads]
    have : ads = [] := List.length_eq_zero.mp hads
    subst this
    have : locationOptions [] = [] := rfl
    rw [this]
    simp
  · rw [if_neg hads]
    rw [List.filter_append, List.filter_append]
    have hprice : (priceFilters slug ads).filter
        (fun f => decide (f.field = str "location")) = [] :=
      List.filter_eq_nil_iff.mpr (fun f hf => by
        simpa using priceFilters_ne_location hf)
    have hspec : (generateCategorySpecificFilters slug ads).filter
        (fun f => decide (f.field = str "location")) = [] :=
      List.filter_eq_nil_iff.mpr (fun f hf => by
        simpa using generateCategorySpecificFilters_ne_location hf)
    rw [hprice, hspec]
    by_cases hloc : 1 < (locationOptions ads).length
    · rw [if_pos hloc]
      simp [locationFilterDef]
    · rw [if_neg hloc]
      simp

/-- Witness for C8: a category whose two ads share the single location
"Paramaribo" synthesizes no location facet; with locations "Paramaribo" and
"Nickerie" it synthesizes exactly one, with the sorted distinct values as
options. -/
theorem generateDynamicFilters_location_facet_witness :
    (generateDynamicFilters (str "diversen")
        [⟨str "A", str "B", str "Paramaribo", 100⟩,
         ⟨str "C", str "D", str "Paramaribo", 100⟩]).filter
        (fun f => decide (f.field = str "location")) = [] ∧
    (generateDynamicFilters (str "diversen")
        [⟨str "A", str "B", str "Paramaribo", 100⟩,
         ⟨str "C", str "D", str "Nickerie", 100⟩]).filter
        (fun f => decide (f.field = str "location"))
      = [locationFilterDef (str "diversen") [str "Nickerie", str "Paramaribo"]] := by
  constructor
  · rw [(generateDynamicFilters_location_facet (str "diversen")
      [⟨str "A", str "B", str "Paramaribo", 100⟩,
       ⟨str "C", str "D", str "Paramaribo", 100⟩]).1]
    decide
  · rw [(generateDynamicFilters_location_facet (str "diversen")
      [⟨str "A", str "B", str "Paramaribo", 100⟩,
       ⟨str "C", str "D", str "Nickerie", 100⟩]).1]
    decide

/-- The single ad of the spec's end-to-end example. -/
def c7Ad : AdRow :=
  { title := str "Auto te koop", description := str "BMW diesel automaat"
    location := str "Paramaribo", price := 500000 }

/-- A second auto ad contributing a second brand, fuel type and
transmission. -/
def c7OtherAd : AdRow :=
  { title := str "Toyota te koop", description := str "benzine handgeschakeld"
    location := str "Paramaribo", price := 500000 }

/-- C7 counterexample: with the single approved ad
`{title: "Auto te koop", description: "BMW diesel automaat"}` in `autos`
(and no curated definitions), every keyword family has exactly one hit and
the code requires at least two, so `GET /api/filters/autos` synthesizes no
facets at all — in particular no `merk` facet containing `Bmw`, no
`brandstof` facet, and no `transmissie` facet. -/
theorem autos_single_ad_no_facets :
    generateDynamicFilters (str "autos") [c7Ad] = [] ∧
    ¬ (∃ f ∈ generateDynamicFilters (str "autos") [c7Ad],
        f.field = str "merk" ∧ str "Bmw" ∈ f.options.getD []) := by
  exact ⟨by decide, by decide⟩

/-- C7 (amended): a single such ad yields one hit per keyword family, below
the two-hit threshold, so no facet; once the category's approved ads jointly
contain at least two distinct brands, fuel types and transmissions — here
the example ad together with a "Toyota … benzine handgeschakeld" ad —
`GET /api/filters/autos` includes a `merk` facet containing `Bmw`, a
`brandstof` facet containing `Diesel`, and a `transmissie` facet containing
`Automaat`. -/
theorem autos_two_ads_keyword_facets :
    generateDynamicFilters (str "autos") [c7Ad] = [] ∧
    (∃ f ∈ generateDynamicFilters (str "autos") [c7Ad, c7OtherAd],
        f.field = str "merk" ∧ str "Bmw" ∈ f.options.getD []) ∧
    (∃ f ∈ generateDynamicFilters (str "autos") [c7Ad, c7OtherAd],
        f.field = str "brandstof" ∧ str "Diesel" ∈ f.options.getD []) ∧
    (∃ f ∈ generateDynamicFilters (str "autos") [c7Ad, c7OtherAd],
        f.field = str "transmissie" ∧ str "Automaat" ∈ f.options.getD []) := by
  refine ⟨by decide, by decide, by decide, by decide⟩

/-! ## Rate limiters (src/middleware/rateLimiter = src/unnamed/part_005, the
instances wired to `POST /api/ads` and `POST /api/ads/:id/contact`, and
src/server/auth/security.ts `loginLimiter` / `registerLimiter`)

Each limiter is an `express-rate-limit` configuration. When a client IP
exceeds the limit, the library invokes the configured `handler` if one is
given — here the handlers call `res.status(429).json({...})` — and
otherwise its default handler, which responds with the configured
`statusCode` (default 429) and the configured `message` value as the body.
We record a configuration by its window, request cap, status code, and the
field names of the `message` object and of the custom handler's JSON body
(when present), and the exceeded-limit response by its status code and body
field names. -/

/-- An `express-rate-limit` configuration as the source writes it. -/
structure RateLimiterConfig where
  windowMs : Nat
  maxRequests : Nat
  statusCode : Nat
  messageKeys : List (List Char)
  handlerKeys : Option (List (List Char))
deriving DecidableEq

/-- The response sent when a client exceeds the limit: the custom handler's
body when a handler is configured, otherwise the `message` object. -/
def rateLimitExceededResponse (c : RateLimiterConfig) : Nat × List (List Char) :=
  (c.statusCode,
    match c.handlerKeys with
    | some ks => ks
    | none => c.messageKeys)

/-- `createAdLimiter` (src/middleware/rateLimiter): 5 per 10 minutes, custom
handler sending `{error, message, retryAfter}`; no `message` option. -/
def createAdLimiter : RateLimiterConfig :=
  { windowMs := 10 * 60 * 1000, maxRequests := 5, statusCode := 429
    messageKeys := []
    handlerKeys := some [str "error", str "message", str "retryAfter"] }

/-- `contactLimiter` (src/middleware/rateLimiter): 3 per 5 minutes, custom
handler sending `{error, message, retryAfter, limit, windowMs}`. -/
def contactLimiter : RateLimiterConfig :=
  { windowMs := 5 * 60 * 1000, maxRequests := 3, statusCode := 429
    messageKeys := [str "error", str "message", str "retryAfter"]
    handlerKeys := some [str "error", str "message", str "retryAfter",
      str "limit", str "windowMs"] }

/-- `loginLimiter` (src/server/auth/security.ts): 5 per 15 minutes, no custom
handler; `message` is `{error: ...}` only. -/
def loginLimiter : RateLimiterConfig :=
  { windowMs := 15 * 60 * 1000, maxRequests := 5, statusCode := 429
    messageKeys := [str "error"], handlerKeys := none }

/-- `registerLimiter` (src/server/auth/security.ts): 3 per 60 minutes, no
custom handler; `message` is `{error: ...}` only. -/
def registerLimiter : RateLimiterConfig :=
  { windowMs := 60 * 60 * 1000, maxRequests := 3, statusCode := 429
    messageKeys := [str "error"], handlerKeys := none }

/-- C9 counterexample: the login limiter's exceeded-limit response is
HTTP 429 with a body holding only `error` — neither `message` nor
`retryAfter` is present (and likewise for registration, proved in the
amended theorem). -/
theorem loginLimiter_body_lacks_fields :
    (rateLimitExceededResponse loginLimiter).1 = 429 ∧
    str "error" ∈ (rateLimitExceededResponse loginLimiter).2 ∧
    str "message" ∉ (rateLimitExceededResponse loginLimiter).2 ∧
    str "retryAfter" ∉ (rateLimitExceededResponse loginLimiter).2 := by
  refine ⟨rfl, by decide, by decide, by decide⟩

/-- C9 (amended): all four limiters answer an exceeded limit with HTTP 429;
the ad-creation and contact-message limiters send a structured body
containing `error`, `message` and `retryAfter`, while the login and
registration limiters — which configure no custom handler — send only their
`message` object, whose single field is `error`. -/
theorem rateLimiters_exceeded_responses :
    ((rateLimitExceededResponse createAdLimiter).1 = 429 ∧
      str "error" ∈ (rateLimitExceededResponse createAdLimiter).2 ∧
      str "message" ∈ (rateLimitExceededResponse createAdLimiter).2 ∧
      str "retryAfter" ∈ (rateLimitExceededResponse createAdLimiter).2) ∧
    ((rateLimitExceededResponse contactLimiter).1 = 429 ∧
      str "error" ∈ (rateLimitExceededResponse contactLimiter).2 ∧
      str "message" ∈ (rateLimitExceededResponse contactLimiter).2 ∧
      str "retryAfter" ∈ (rateLimitExceededResponse contactLimiter).2) ∧
    rateLimitExceededResponse loginLimiter = (429, [str "error"]) ∧
    rateLimitExceededResponse registerLimiter = (429, [str "error"]) := by
  refine ⟨⟨rfl, by decide, by decide, by decide⟩,
    ⟨rfl, by decide, by decide, by decide⟩, rfl, rfl⟩

end Surodeals
